import Mathlib

/-!
Shallow embedding of the Leaflet plugin `src/leaflet.a7.drawshape.js`
(`L.A7DrawShape`), together with theorems settling the frozen claims about
its specification.

Modelling conventions:
* Geographic coordinates (`L.LatLng`) and container/screen pixels (`L.Point`)
  are rational pairs; the map surface (Leaflet) is an external collaborator
  and is abstracted as a record `GeoLib` of coordinate transforms.
* Distances in the source are real numbers produced by `Math.sqrt`.  The
  embedding keeps every squared distance as an exact rational
  (`distSqPt`, `distSqToSegment`) and defines the source's distance values
  as `Real.sqrt` of those rationals (`pointDistance`, `pointToLineDistance`).
  All comparisons the source performs on distances (`<`, `<=`) are encoded
  on the squares; `Real.sqrt` is strictly monotone on nonnegatives, so the
  branching behaviour is identical, and the bridge lemmas below
  (`sqrt_le_bridge`, `lt_sqrt_bridge`) prove that equivalence.
* JavaScript runtime errors (calling a method that does not exist) are
  modelled by the `JsResult.thrown` constructor.
-/

namespace A7DrawShape

/-- Geographic coordinate, mirroring `L.LatLng` (fields `lat`, `lng`). -/
structure LatLng where
  lat : ℚ
  lng : ℚ
deriving DecidableEq, Repr, Inhabited

/-- Container-pixel point, mirroring `L.Point` (`x`, `y`) as a pair. -/
abbrev Px : Type := ℚ × ℚ

/-- The external Leaflet collaborator: great-circle distance in meters
(`L.LatLng.prototype.distanceTo`), the `destinationPoint(distance, bearing)`
method that `drawFromGeoJSON` invokes on a `L.LatLng`, and the map's
`latLngToContainerPoint` projection.  The plugin never defines these; they
belong to the map surface, so they are parameters of the embedding. -/
structure GeoLib where
  distanceTo : LatLng → LatLng → ℝ
  destinationPoint : LatLng → ℚ → ℚ → LatLng
  proj : LatLng → Px

/-- The current composed primitive (`this.shape`): the node itself for a
point, `L.polyline`, `L.polygon` (ring closed by `_updateShape`),
`L.rectangle` over a `latLngBounds`, or `L.circle` with a meter radius. -/
inductive Shape
  | pointNode (c : LatLng)
  | polyline (pts : List LatLng)
  | polygon (pts : List LatLng)
  | rectangle (sw ne : LatLng)
  | circle (center : LatLng) (radius : ℝ)

/-- The plugin options that carry behavioural (non-styling) content:
`nodeRadius`, `autoPanSpeed`, `autoPanPadding`, with the source defaults. -/
structure DrawOptions where
  nodeRadius : ℚ := 6
  autoPanSpeed : ℚ := 10
  autoPanPadding : Px := (50, 50)
deriving DecidableEq, Repr

/-- The mutable instance state of `L.A7DrawShape` (see `initialize`):
`shape`, `nodes`, `isDrawing`, `shapeType`, `tempLine` (modelled as mere
presence), and the `state` string.  Nodes are modelled by their coordinate;
the visual `L.circleMarker` handle and its halo are rendering concerns. -/
structure EditorState where
  shape : Option Shape := none
  nodes : List LatLng := []
  isDrawing : Bool := false
  shapeType : Option String := none
  tempLine : Bool := false
  state : String := "idle"
  options : DrawOptions := {}

/-- The state right after `initialize` (no shape, no nodes, idle). -/
def initState : EditorState := {}

/-- Lower-casing as `String.prototype.toLowerCase` behaves on the ASCII
type names the codec uses (character-wise `toLower`). -/
def jsToLowerCase (s : String) : String := ⟨s.data.map Char.toLower⟩

/-- Source `clear()` (lines 81-100).  Note that the source sets
`this.isDrawing = true` (line 97) while setting `this.state = 'idle'`;
the embedding reproduces this faithfully.  `shapeType` is not reset. -/
def clear (st : EditorState) : EditorState :=
  { st with shape := none, nodes := [], isDrawing := true,
            state := "idle", tempLine := false }

/-- Source `startDrawing(type)` (lines 69-76). -/
def startDrawing (ty : String) (st : EditorState) : EditorState :=
  let st := clear st
  { st with shapeType := some ty, isDrawing := true, state := "drawing" }

/-- Southwest/northeast corners of `L.latLngBounds(latlngs)`: componentwise
min/max over the list (Leaflet extends the bounds point by point). -/
def latLngBounds (pts : List LatLng) : LatLng × LatLng :=
  (⟨pts.foldl (fun m p => min m p.lat) pts.head!.lat,
    pts.foldl (fun m p => min m p.lng) pts.head!.lng⟩,
   ⟨pts.foldl (fun m p => max m p.lat) pts.head!.lat,
    pts.foldl (fun m p => max m p.lng) pts.head!.lng⟩)

/-- Source `_updateShape()` (lines 353-401): rebuilds `this.shape` from the
node list according to `shapeType`; when no branch applies the previous
`shape` value is kept (the source only reassigns it inside the branches). -/
def updateShape (g : GeoLib) (st : EditorState) : EditorState :=
  let latlngs := st.nodes
  let shape :=
    if st.shapeType = some "point" ∧ latlngs.length = 1 then
      some (Shape.pointNode latlngs.head!)
    else if st.shapeType = some "line" ∧ 2 ≤ latlngs.length then
      some (Shape.polyline latlngs)
    else if st.shapeType = some "polygon" ∧ 3 ≤ latlngs.length then
      some (Shape.polygon (latlngs ++ [latlngs.head!]))
    else if st.shapeType = some "rectangle" ∧ 2 ≤ latlngs.length then
      some (Shape.rectangle (latLngBounds latlngs).1 (latLngBounds latlngs).2)
    else if st.shapeType = some "circle" ∧ 2 ≤ latlngs.length then
      some (Shape.circle latlngs.head! (g.distanceTo latlngs.head! latlngs[1]!))
    else st.shape
  { st with shape := shape }

/-- Squared Euclidean pixel distance; `L.Point.distanceTo p q` is its
square root (`pointDistance`). -/
def distSqPt (p q : Px) : ℚ := (p.1 - q.1) ^ 2 + (p.2 - q.2) ^ 2

/-- Euclidean pixel distance, the value `L.Point.prototype.distanceTo`
returns. -/
noncomputable def pointDistance (p q : Px) : ℝ := Real.sqrt (distSqPt p q)

/-- Square of the value returned by `_pointToLineDistance(p, a, b)`
(lines 411-449): same `A,B,C,D`, `dot`, `len_sq`, `param` computation and
the same three-way clamp branching, returning `dx*dx + dy*dy` instead of
its square root. -/
def distSqToSegment (p a b : Px) : ℚ :=
  let A := p.1 - a.1
  let B := p.2 - a.2
  let C := b.1 - a.1
  let D := b.2 - a.2
  let dot := A * C + B * D
  let len_sq := C * C + D * D
  let param := if len_sq ≠ 0 then dot / len_sq else -1
  let q := if param < 0 then (a.1, a.2)
    else if 1 < param then (b.1, b.2)
    else (a.1 + param * C, a.2 + param * D)
  (p.1 - q.1) ^ 2 + (p.2 - q.2) ^ 2

/-- Source `_pointToLineDistance(p, a, b)`: `Math.sqrt(dx*dx + dy*dy)` after
the clamped-projection computation. -/
noncomputable def pointToLineDistance (p a b : Px) : ℝ :=
  Real.sqrt (distSqToSegment p a b)

/-- Candidate segments tried by the idle-insertion loop (lines 213-223):
index `i` runs over all nodes and the second endpoint is
`nodes[(i + 1) % nodes.length]`, i.e. the list zipped with its rotation
by one, for a polygon AND for a line alike. -/
def candidateSegments (pts : List Px) : List (Px × Px) := pts.zip (pts.rotate 1)

/-- The `minDist`/`insertIdx` accumulation of the idle-insertion loop:
starting from `minDist = Infinity` (`none`), each segment with strictly
smaller (squared) distance replaces the best candidate, recording insertion
index `i + 1`. -/
def segTargetAux (click : Px) : List (Px × Px) → Nat → Option (ℚ × Nat) → Option (ℚ × Nat)
  | [], _, acc => acc
  | s :: rest, i, acc =>
    let d := distSqToSegment click s.1 s.2
    let acc2 := match acc with
      | none => some (d, i + 1)
      | some (m, j) => if d < m then some (d, i + 1) else some (m, j)
    segTargetAux click rest (i + 1) acc2

/-- Result of the whole idle-insertion loop over the candidate segments. -/
def segTarget (click : Px) (segs : List (Px × Px)) : Option (ℚ × Nat) :=
  segTargetAux click segs 0 none

/-- The idle-insertion branch of `_onMapClick` (lines 197-233): fires only
when not drawing, the type is polygon/line with at least its minimum node
count, the click is farther than `2 * nodeRadius` pixels from every node,
and the smallest click-to-segment distance is at most `2 * nodeRadius`;
then the new node is spliced in at `insertIdx` and the shape rebuilt.
Returns `none` when the branch falls through. -/
def insertionResult (g : GeoLib) (st : EditorState) (latlng : LatLng) : Option EditorState :=
  let clickPoint := g.proj latlng
  let r2 := (2 * st.options.nodeRadius) ^ 2
  if st.isDrawing = false ∧ (st.shapeType = some "polygon" ∨ st.shapeType = some "line") ∧
      (if st.shapeType = some "polygon" then 3 else 2) ≤ st.nodes.length then
    if ∀ nd ∈ st.nodes, ¬ distSqPt clickPoint (g.proj nd) ≤ r2 then
      match segTarget clickPoint (candidateSegments (st.nodes.map g.proj)) with
      | some (minDistSq, insertIdx) =>
        if minDistSq ≤ r2 then
          some (updateShape g { st with nodes := st.nodes.insertIdx insertIdx latlng })
        else none
      | none => none
    else none
  else none

/-- Source `_onMapClick(e)` (lines 196-281): idle insertion first, then the
`!isDrawing` early return, the point branch (which assigns `this.shape = node`
directly), the line finish gesture (click within `2 * nodeRadius` pixels of
the last node), and the default append with completion for
polygon/rectangle/circle. -/
def onMapClick (g : GeoLib) (st : EditorState) (latlng : LatLng) : EditorState :=
  match insertionResult g st latlng with
  | some st2 => st2
  | none =>
    if st.isDrawing = false then st
    else if st.shapeType = some "point" ∧ st.shape.isNone then
      let st := { st with nodes := st.nodes ++ [latlng] }
      { st with shape := some (Shape.pointNode latlng), isDrawing := false, state := "idle" }
    else if st.shapeType = some "line" ∧ 1 < st.nodes.length ∧
        distSqPt (g.proj st.nodes.getLast!) (g.proj latlng) ≤ (2 * st.options.nodeRadius) ^ 2 then
      { st with isDrawing := false, state := "idle", tempLine := false }
    else
      let st := updateShape g { st with nodes := st.nodes ++ [latlng] }
      if (st.shapeType = some "polygon" ∨ st.shapeType = some "rectangle" ∨
            st.shapeType = some "circle") ∧
          (if st.shapeType = some "polygon" then 3 else 2) ≤ st.nodes.length then
        { st with isDrawing := false, state := "idle", tempLine := false }
      else st

/-- The `contextmenu` handler installed on every node (lines 170-186),
with `i` the index the source recovers via `this.nodes.indexOf(node)`.
The minimum is 3 for polygon and 2 otherwise (the source's ternary gives
2 both for rectangle/circle and for every other type, point included).
At the minimum the whole shape is cleared; above it the node is spliced
out and the shape rebuilt; below it nothing happens. -/
def onNodeContextMenu (g : GeoLib) (st : EditorState) (i : Nat) : EditorState :=
  let minNodes : Nat := if st.shapeType = some "polygon" then 3
    else if st.shapeType = some "rectangle" ∨ st.shapeType = some "circle" then 2 else 2
  if st.nodes.length = minNodes then clear st
  else if minNodes < st.nodes.length then
    updateShape g { st with nodes := st.nodes.eraseIdx i }
  else st

/-- Source `_autoPan(containerPoint)` (lines 325-347): two independent
sequential checks per axis (the right/bottom assignment overwrites the
left/top one when both fire), then `panBy` iff some component is nonzero.
Returns the pan vector, `none` for the no-op case. -/
def autoPan (o : DrawOptions) (mapSize containerPoint : Px) : Option Px :=
  let x : ℚ := 0
  let x := if containerPoint.1 < o.autoPanPadding.1 then -o.autoPanSpeed else x
  let x := if mapSize.1 - o.autoPanPadding.1 < containerPoint.1 then o.autoPanSpeed else x
  let y : ℚ := 0
  let y := if containerPoint.2 < o.autoPanPadding.2 then -o.autoPanSpeed else y
  let y := if mapSize.2 - o.autoPanPadding.2 < containerPoint.2 then o.autoPanSpeed else y
  if x ≠ 0 ∨ y ≠ 0 then some (x, y) else none

/-- A JavaScript runtime error: calling a member that is `undefined`. -/
inductive JsErr
  | typeError
deriving DecidableEq, Repr

/-- Result of running a JS function that may throw. -/
inductive JsResult (α : Type)
  | ok (val : α)
  | thrown (err : JsErr)
deriving DecidableEq, Repr

/-- GeoJSON coordinate payloads: a single position, a position list, or
polygon rings.  Payloads whose shape does not match the `type` tag are
outside this model. -/
inductive GeoCoords
  | single (c : ℚ × ℚ)
  | list (cs : List (ℚ × ℚ))
  | rings (rs : List (List (ℚ × ℚ)))
deriving DecidableEq, Repr

/-- A GeoJSON geometry object as the codec reads/writes it: the `type`
string, coordinates (positions are `[lng, lat]` pairs), and the
out-of-band `radius` field used for circles. -/
structure GeoJSON where
  type : String
  coords : GeoCoords
  radius : Option ℚ := none
deriving DecidableEq, Repr

/-- Source `getGeoJSON()` (lines 455-493).  `coordinates` is the node list
as plain `[lng, lat]` arrays.  The circle branch evaluates
`coordinates[0].distanceTo(coordinates[1])`: `coordinates[0]` is a plain
array with no `distanceTo` member, so that branch throws a `TypeError`.
When no branch matches (e.g. `shapeType` `'linestring'`, or rectangle with
a node count other than 2) the function falls off the end (`undefined`,
modelled like `null` as `ok none`). -/
def getGeoJSON (st : EditorState) : JsResult (Option GeoJSON) :=
  match st.shape with
  | none => .ok none
  | some _ =>
    let coordinates : List (ℚ × ℚ) := st.nodes.map fun nd => (nd.lng, nd.lat)
    if st.shapeType = some "point" then
      .ok (some { type := "Point", coords := GeoCoords.single coordinates.head! })
    else if st.shapeType = some "line" then
      .ok (some { type := "LineString", coords := GeoCoords.list coordinates })
    else if st.shapeType = some "polygon" then
      .ok (some { type := "Polygon",
                  coords := GeoCoords.rings [coordinates ++ [coordinates.head!]] })
    else if st.shapeType = some "rectangle" ∧ coordinates.length = 2 then
      let c0 := coordinates.head!
      let c1 := coordinates[1]!
      .ok (some { type := "Polygon",
                  coords := GeoCoords.rings [[c0, (c1.1, c0.2), c1, (c0.1, c1.2), c0]] })
    else if st.shapeType = some "circle" ∧ coordinates.length = 2 then
      .thrown JsErr.typeError
    else .ok none

/-- Source `drawFromGeoJSON(geojson, options)` (lines 500-549): clears,
bails out on a missing/empty `type`, applies option overrides, sets
`shapeType` to the lower-cased `type`, dispatches on the exact `type`
string (a 5-position polygon ring becomes a rectangle from ring positions
0 and 2; a `Point` with a truthy `radius` becomes a circle whose second
node is `destinationPoint(radius, 90)` on the center), pushes one node per
resolved coordinate and rebuilds the shape.  Unknown types return after
the clear with `shapeType` already overwritten. -/
def drawFromGeoJSON (g : GeoLib) (st0 : EditorState) (gj : Option GeoJSON)
    (opts : Option DrawOptions) : EditorState :=
  let st := clear st0
  match gj with
  | none => st
  | some geojson =>
    if geojson.type = "" then st
    else
      let st := match opts with
        | some o => { st with options := o }
        | none => st
      let st := { st with shapeType := some (jsToLowerCase geojson.type) }
      if geojson.type = "Point" then
        match geojson.coords with
        | GeoCoords.single c =>
          let withRadius :=
            match geojson.radius with
            | some r =>
              if r ≠ 0 then
                let center : LatLng := ⟨c.2, c.1⟩
                some ({ st with shapeType := some "circle" },
                      [center, g.destinationPoint center r 90])
              else none
            | none => none
          match withRadius with
          | some (st2, pts) => updateShape g { st2 with nodes := pts }
          | none => updateShape g { st with nodes := [(⟨c.2, c.1⟩ : LatLng)] }
        | _ => st
      else if geojson.type = "LineString" then
        match geojson.coords with
        | GeoCoords.list cs =>
          updateShape g { st with nodes := cs.map fun c => (⟨c.2, c.1⟩ : LatLng) }
        | _ => st
      else if geojson.type = "Polygon" then
        match geojson.coords with
        | GeoCoords.rings rs =>
          let ring := rs.head!
          if ring.length = 5 then
            let st2 := { st with shapeType := some "rectangle" }
            updateShape g
              { st2 with nodes := [⟨(ring[0]!).2, (ring[0]!).1⟩, ⟨(ring[2]!).2, (ring[2]!).1⟩] }
          else
            updateShape g
              { st with nodes := ring.dropLast.map fun c => (⟨c.2, c.1⟩ : LatLng) }
        | _ => st
      else st

/-- A concrete map surface for witnesses: the projection sends `lat`/`lng`
to pixel `y`/`x` unchanged (an identity-like flat projection). -/
def flatLib : GeoLib where
  distanceTo := fun _ _ => 0
  destinationPoint := fun c _ _ => c
  proj := fun c => (c.lng, c.lat)

/-- Closest point of segment `[a, b]` to `p` as the specification describes
it: the orthogonal projection of `p` onto the line through `a` and `b` with
its parameter clamped to `[0, 1]`, and `a` itself when the endpoints
coincide. -/
def segClosestPoint (p a b : Px) : Px :=
  if a = b then a
  else
    let t := ((p.1 - a.1) * (b.1 - a.1) + (p.2 - a.2) * (b.2 - a.2)) /
      ((b.1 - a.1) * (b.1 - a.1) + (b.2 - a.2) * (b.2 - a.2))
    let tc := max 0 (min 1 t)
    (a.1 + tc * (b.1 - a.1), a.2 + tc * (b.2 - a.2))

/-- State reached by `clear()` right after `startDrawing('line')`
(no nodes, no shape). -/
def stClear : EditorState := clear (startDrawing "line" initState)

/-- Completed two-node line: `startDrawing('line')`, clicks at
lat/lng (0,0) and (0,100), then a finishing click on the last node. -/
def stLine : EditorState :=
  onMapClick flatLib (onMapClick flatLib (onMapClick flatLib
    (startDrawing "line" initState) ⟨0, 0⟩) ⟨0, 100⟩) ⟨0, 100⟩

/-- The GeoJSON that `getGeoJSON` produces for `stLine`. -/
def gjLineOut : GeoJSON :=
  { type := "LineString", coords := GeoCoords.list [(0, 0), (100, 0)] }

/-- Completed circle: `startDrawing('circle')`, center click at (0,0) and a
second click at (0,1). -/
def stCirc : EditorState :=
  onMapClick flatLib (onMapClick flatLib (startDrawing "circle" initState) ⟨0, 0⟩) ⟨0, 1⟩

/-- Completed rectangle: `startDrawing('rectangle')`, clicks at
lat/lng (10,10) and (20,20). -/
def stRect : EditorState :=
  onMapClick flatLib (onMapClick flatLib (startDrawing "rectangle" initState) ⟨10, 10⟩) ⟨20, 20⟩

/-- The ring claimed by the specification's rectangle example
(its corner list read as `[lng, lat]` pairs). -/
def gjRectClaimed : GeoJSON :=
  { type := "Polygon",
    coords := GeoCoords.rings [[(10, 10), (10, 20), (20, 20), (20, 10), (10, 10)]] }

/-- The ring `getGeoJSON` actually produces for `stRect`. -/
def gjRectActual : GeoJSON :=
  { type := "Polygon",
    coords := GeoCoords.rings [[(10, 10), (20, 10), (20, 20), (10, 20), (10, 10)]] }

/-- Completed single-node point shape: `startDrawing('point')` and one
click at lat/lng (5,5). -/
def stPoint : EditorState := onMapClick flatLib (startDrawing "point" initState) ⟨5, 5⟩

/-- A completed idle three-node line with nodes at lat/lng (0,0), (0,100),
(100,100); under `flatLib` its pixel nodes are (0,0), (100,0), (100,100). -/
def stL3 : EditorState :=
  { shape := some (Shape.polyline [⟨0, 0⟩, ⟨0, 100⟩, ⟨100, 100⟩]),
    nodes := [⟨0, 0⟩, ⟨0, 100⟩, ⟨100, 100⟩],
    isDrawing := false, shapeType := some "line", state := "idle" }

/-- A GeoJSON object with an unrecognized `type`. -/
def gjMulti : GeoJSON := { type := "MultiPoint", coords := GeoCoords.list [] }

/-- A completed idle three-node line used to exercise node removal. -/
def stLine3 : EditorState :=
  { shape := some (Shape.polyline [⟨0, 0⟩, ⟨1, 1⟩, ⟨2, 2⟩]),
    nodes := [⟨0, 0⟩, ⟨1, 1⟩, ⟨2, 2⟩],
    isDrawing := false, shapeType := some "line", state := "idle" }

/-- Another completed idle three-node line, for the wrap-around witness. -/
def stW6 : EditorState :=
  { shape := some (Shape.polyline [⟨0, 0⟩, ⟨0, 10⟩, ⟨10, 10⟩]),
    nodes := [⟨0, 0⟩, ⟨0, 10⟩, ⟨10, 10⟩],
    isDrawing := false, shapeType := some "line", state := "idle" }

/-- A completed idle triangle polygon used as the insertion-guard witness. -/
def stW7 : EditorState :=
  { shape := some (Shape.polygon [⟨0, 0⟩, ⟨0, 8⟩, ⟨8, 8⟩, ⟨0, 0⟩]),
    nodes := [⟨0, 0⟩, ⟨0, 8⟩, ⟨8, 8⟩],
    isDrawing := false, shapeType := some "polygon", state := "idle" }

/-! Helper lemmas: evaluation of `List.getLast!` on literal lists, and
bridges between the rational squared distances of the embedding and the
real distances the source compares (legitimate because `Real.sqrt` is
monotone and the squares are nonnegative). -/

theorem getLast!_singleton {α : Type} [Inhabited α] (a : α) :
    ([a] : List α).getLast! = a := rfl

theorem getLast!_cons_cons {α : Type} [Inhabited α] (a b : α) (l : List α) :
    (a :: b :: l).getLast! = (b :: l).getLast! := rfl

attribute [simp] getLast!_singleton getLast!_cons_cons

theorem distSqPt_nonneg (p q : Px) : 0 ≤ distSqPt p q := by
  unfold distSqPt; positivity

theorem distSqToSegment_nonneg (p a b : Px) : 0 ≤ distSqToSegment p a b := by
  unfold distSqToSegment; positivity

theorem sqrt_ratCast_le_iff {q : ℚ} {c : ℝ} (hc : 0 ≤ c) :
    Real.sqrt q ≤ c ↔ (q : ℝ) ≤ c ^ 2 := by
  rw [Real.sqrt_le_iff]
  tauto

theorem lt_sqrt_ratCast_iff {q : ℚ} {c : ℝ} (hc : 0 ≤ c) :
    c < Real.sqrt q ↔ c ^ 2 < (q : ℝ) :=
  Real.lt_sqrt hc

/--
C3: after `clear()` the source state string is `'idle'` but `isDrawing`
is `true` (line 97), so a subsequent map click is NOT a no-op: it creates
a node even though `startDrawing` was never called again.  This refutes
the claim's consequence and witnesses the code bug.
-/
theorem c3_click_after_clear_creates_node :
    stClear.state = "idle" ∧ stClear.isDrawing = true ∧ stClear.nodes = [] ∧
      stClear.shape = none ∧
      (onMapClick flatLib stClear ⟨5, 5⟩).nodes = [⟨5, 5⟩] := by
  refine ⟨rfl, rfl, rfl, rfl, ?_⟩
  simp [stClear, onMapClick, insertionResult, startDrawing, clear, initState,
    updateShape, flatLib]

/--
C1: round trip for a completed Line.  `getGeoJSON` emits a `LineString`;
`drawFromGeoJSON` of that output reproduces the node coordinates in order
but sets `shapeType` to the lower-cased `'linestring'`, which is not the
internal `'line'` tag, and `_updateShape` consequently rebuilds no shape
(`getGeoJSON` of the result is `null`).  The ShapeType is therefore NOT
reproduced, contradicting the claim.
-/
theorem c1_line_roundtrip_loses_shapetype :
    stLine.shapeType = some "line" ∧ stLine.isDrawing = false ∧
      getGeoJSON stLine = .ok (some gjLineOut) ∧
      (drawFromGeoJSON flatLib stLine (some gjLineOut) none).nodes = stLine.nodes ∧
      (drawFromGeoJSON flatLib stLine (some gjLineOut) none).shapeType = some "linestring" ∧
      (drawFromGeoJSON flatLib stLine (some gjLineOut) none).shape = none ∧
      getGeoJSON (drawFromGeoJSON flatLib stLine (some gjLineOut) none) = .ok none := by
  refine ⟨?_, ?_, ?_, ?_, ?_, ?_, ?_⟩ <;>
    simp [stLine, onMapClick, insertionResult, startDrawing, clear, initState,
      updateShape, getGeoJSON, drawFromGeoJSON, flatLib, gjLineOut, distSqPt,
      jsToLowerCase]

/--
C2: for a completed circle with nodes (0,0) and (0,1) the source's
`getGeoJSON` reaches `coordinates[0].distanceTo(coordinates[1])`, where
`coordinates[0]` is the plain array `[lng, lat]`; plain arrays have no
`distanceTo` method, so the call throws a `TypeError` instead of returning
the `Point`-with-radius object the claim describes.
-/
theorem c2_circle_getgeojson_throws :
    stCirc.shapeType = some "circle" ∧ stCirc.isDrawing = false ∧
      stCirc.nodes = [⟨0, 0⟩, ⟨0, 1⟩] ∧
      getGeoJSON stCirc = .thrown JsErr.typeError := by
  refine ⟨?_, ?_, ?_, ?_⟩ <;>
    simp [stCirc, onMapClick, insertionResult, startDrawing, clear, initState,
      updateShape, getGeoJSON, flatLib, distSqPt]

/--
C4 counterexample: the rectangle scenario's ring is NOT the claimed
sequence (10,10),(10,20),(20,20),(20,10),(10,10) in `[lng, lat]` order —
the source emits corner 1 as `[coordinates[1][0], coordinates[0][1]]`,
i.e. (20,10), not (10,20).
-/
theorem c4_ring_not_as_claimed :
    getGeoJSON stRect ≠ .ok (some gjRectClaimed) := by
  simp [stRect, onMapClick, insertionResult, startDrawing, clear, initState,
    updateShape, latLngBounds, getGeoJSON, flatLib, gjRectClaimed]

/--
C4 amended: after `startDrawing('rectangle')` and clicks at (lat 10,lng 10)
and (lat 20,lng 20) the state is Idle and `getGeoJSON` returns a Polygon
whose single 5-point ring is (10,10),(20,10),(20,20),(10,20),(10,10) in
`[lng, lat]` order (the claim's intermediate corners swapped).
-/
theorem c4_rectangle_scenario :
    stRect.state = "idle" ∧ stRect.isDrawing = false ∧
      getGeoJSON stRect = .ok (some gjRectActual) := by
  refine ⟨?_, ?_, ?_⟩ <;>
    simp [stRect, onMapClick, insertionResult, startDrawing, clear, initState,
      updateShape, latLngBounds, getGeoJSON, flatLib, gjRectActual]

/--
C10: importing a GeoJSON object whose `type` is present but none of
`Point`, `LineString`, `Polygon` leaves the cleared editor with no nodes
and no shape, yet `shapeType` has already been overwritten with the
lower-cased `type`, so the pre-call `shapeType` is not restored.
-/
theorem c10_unknown_type_import (g : GeoLib) (st : EditorState) (gj : GeoJSON)
    (opts : Option DrawOptions) (h0 : gj.type ≠ "") (h1 : gj.type ≠ "Point")
    (h2 : gj.type ≠ "LineString") (h3 : gj.type ≠ "Polygon") :
    (drawFromGeoJSON g st (some gj) opts).nodes = [] ∧
      (drawFromGeoJSON g st (some gj) opts).shape = none ∧
      (drawFromGeoJSON g st (some gj) opts).shapeType = some (jsToLowerCase gj.type) := by
  cases opts <;> simp [drawFromGeoJSON, clear, h0, h1, h2, h3]

/--
C10 witness: the import of a `MultiPoint` object into the fresh editor.
-/
theorem c10_unknown_type_import_witness :
    (drawFromGeoJSON flatLib initState (some gjMulti) none).nodes = [] ∧
      (drawFromGeoJSON flatLib initState (some gjMulti) none).shape = none ∧
      (drawFromGeoJSON flatLib initState (some gjMulti) none).shapeType =
        some (jsToLowerCase gjMulti.type) :=
  c10_unknown_type_import flatLib initState gjMulti none
    (by decide) (by decide) (by decide) (by decide)

theorem updateShape_nodes (g : GeoLib) (st : EditorState) :
    (updateShape g st).nodes = st.nodes := rfl

/--
C5 counterexample: for a completed Point (exactly 1 node, the type's
minimum according to the claim) the secondary action on that node does
NOT remove the shape: the handler's minimum for point is 2
(`polygon ? 3 : (rectangle || circle ? 2 : 2)`), the node count 1 matches
neither branch, and the state is left untouched.
-/
theorem c5_point_minimum_not_cleared :
    stPoint.shapeType = some "point" ∧ stPoint.nodes = [⟨5, 5⟩] ∧
      onNodeContextMenu flatLib stPoint 0 = stPoint ∧
      (onNodeContextMenu flatLib stPoint 0).nodes ≠ [] := by
  refine ⟨rfl, rfl, rfl, ?_⟩
  simp [stPoint, onNodeContextMenu, onMapClick, insertionResult, startDrawing,
    clear, initState, flatLib]

/--
C5 amended: the secondary-action minimum is 3 for polygon and 2 for every
other type (point included, so a completed Point's single node can never
be removed this way); at exactly the minimum the whole shape is cleared,
above it exactly the clicked node is spliced out, preserving the relative
order of the rest, and below it nothing happens.
-/
theorem c5_secondary_action (g : GeoLib) (st : EditorState) (i : Nat)
    (_hi : i < st.nodes.length) :
    (st.nodes.length = (if st.shapeType = some "polygon" then 3 else 2) →
        onNodeContextMenu g st i = clear st) ∧
      ((if st.shapeType = some "polygon" then 3 else 2) < st.nodes.length →
        (onNodeContextMenu g st i).nodes = st.nodes.take i ++ st.nodes.drop (i + 1)) ∧
      (st.nodes.length < (if st.shapeType = some "polygon" then 3 else 2) →
        onNodeContextMenu g st i = st) := by
  have hmin : (if st.shapeType = some "polygon" then (3 : Nat)
      else if st.shapeType = some "rectangle" ∨ st.shapeType = some "circle" then 2 else 2) =
      (if st.shapeType = some "polygon" then 3 else 2) := by
    split_ifs <;> rfl
  refine ⟨fun h => ?_, fun h => ?_, fun h => ?_⟩
  · unfold onNodeContextMenu
    rw [hmin, if_pos h]
  · unfold onNodeContextMenu
    rw [hmin, if_neg (by omega), if_pos h, updateShape_nodes]
    simp [List.eraseIdx_eq_take_drop_succ]
  · unfold onNodeContextMenu
    rw [hmin, if_neg (by omega), if_neg (by omega)]

/--
C5 witness: removing the middle node of a completed idle three-node line
(count 3, above the line minimum 2) keeps the first and last node in
order.
-/
theorem c5_secondary_action_witness :
    (if stLine3.shapeType = some "polygon" then 3 else 2) < stLine3.nodes.length ∧
      (onNodeContextMenu flatLib stLine3 1).nodes =
        stLine3.nodes.take 1 ++ stLine3.nodes.drop 2 :=
  ⟨by decide, (c5_secondary_action flatLib stLine3 1 (by decide)).2.1 (by decide)⟩

/--
C9 counterexample: with the default options (speed 10, padding (50,50))
on a 60×60 viewport the pointer (30,30) is within the padding of the
left and top edges, yet `_autoPan` pans by `+speed` on both axes, because
the right/bottom checks also fire (`30 > 60 - 50`) and their assignment
overwrites the left/top one.
-/
theorem c9_overlapping_bands_pan_positive :
    (30 : ℚ) < ({} : DrawOptions).autoPanPadding.1 ∧
      (30 : ℚ) < ({} : DrawOptions).autoPanPadding.2 ∧
      autoPan {} (60, 60) (30, 30) =
        some (({} : DrawOptions).autoPanSpeed, ({} : DrawOptions).autoPanSpeed) := by
  refine ⟨by norm_num, by norm_num, ?_⟩
  norm_num [autoPan]

/--
C9 amended: per axis, `_autoPan` pans by `+speed` exactly when the pointer
is within the padding of the right/bottom edge (this check runs second and
overwrites the other), by `-speed` exactly when it is within the padding
of the left/top edge and NOT within the right/bottom band, and by 0
otherwise; the axes are decided independently, and no pan happens iff
neither band triggers on either axis.
-/
theorem c9_autopan_characterization (o : DrawOptions) (size p : Px)
    (hs : 0 < o.autoPanSpeed) :
    (autoPan o size p = none ↔
      ¬ (p.1 < o.autoPanPadding.1) ∧ ¬ (size.1 - o.autoPanPadding.1 < p.1) ∧
        ¬ (p.2 < o.autoPanPadding.2) ∧ ¬ (size.2 - o.autoPanPadding.2 < p.2)) ∧
      (∀ v, autoPan o size p = some v →
        ((v.1 = o.autoPanSpeed ↔ size.1 - o.autoPanPadding.1 < p.1) ∧
          (v.1 = -o.autoPanSpeed ↔
            p.1 < o.autoPanPadding.1 ∧ ¬ (size.1 - o.autoPanPadding.1 < p.1)) ∧
          (v.1 = 0 ↔
            ¬ (p.1 < o.autoPanPadding.1) ∧ ¬ (size.1 - o.autoPanPadding.1 < p.1))) ∧
        ((v.2 = o.autoPanSpeed ↔ size.2 - o.autoPanPadding.2 < p.2) ∧
          (v.2 = -o.autoPanSpeed ↔
            p.2 < o.autoPanPadding.2 ∧ ¬ (size.2 - o.autoPanPadding.2 < p.2)) ∧
          (v.2 = 0 ↔
            ¬ (p.2 < o.autoPanPadding.2) ∧ ¬ (size.2 - o.autoPanPadding.2 < p.2)))) := by
  have h1 : o.autoPanSpeed ≠ 0 := ne_of_gt hs
  have h2 : -o.autoPanSpeed ≠ 0 := by intro h; apply h1; linarith
  have h3 : o.autoPanSpeed ≠ -o.autoPanSpeed := by intro h; apply h1; linarith
  have h4 : -o.autoPanSpeed ≠ o.autoPanSpeed := by intro h; apply h1; linarith
  unfold autoPan
  split_ifs with hx1 hx2 hy1 hy2 <;> simp_all <;>
    first
    | tauto
    | (constructor <;> first | tauto | (intro h; exfalso; linarith))

/--
C9 witness: a pointer well inside a 500×500 viewport triggers no pan.
-/
theorem c9_autopan_characterization_witness :
    autoPan {} (500, 500) (250, 250) = none :=
  (c9_autopan_characterization {} (500, 500) (250, 250) (by norm_num)).1.mpr
    (by norm_num)

/--
C6 counterexample: a completed idle three-node Line whose pixel nodes are
(0,0), (100,0), (100,100); the click at pixel (50,50) is farther than
`2 * nodeRadius = 12` from both real segments and from every node, but
lies on the imaginary wrap-around segment from the last node back to the
first — and the idle-insertion path DOES insert a node (appended at the
end), because the loop computes `nodes[(i + 1) % nodes.length]` for a line
as well.  This refutes the claim that a Line click near only that segment
never inserts.
-/
theorem c6_line_wrap_segment_inserts :
    stL3.shapeType = some "line" ∧ stL3.isDrawing = false ∧
      candidateSegments (stL3.nodes.map flatLib.proj) =
        [((0, 0), (100, 0)), ((100, 0), (100, 100)), ((100, 100), (0, 0))] ∧
      (2 * 6 : ℝ) < pointToLineDistance (50, 50) (0, 0) (100, 0) ∧
      (2 * 6 : ℝ) < pointToLineDistance (50, 50) (100, 0) (100, 100) ∧
      pointToLineDistance (50, 50) (100, 100) (0, 0) ≤ (2 * 6 : ℝ) ∧
      (∀ nd ∈ stL3.nodes, (2 * 6 : ℝ) < pointDistance (50, 50) (flatLib.proj nd)) ∧
      (onMapClick flatLib stL3 ⟨50, 50⟩).nodes = stL3.nodes ++ [⟨50, 50⟩] := by
  have e1 : distSqToSegment (50, 50) (0, 0) (100, 0) = 2500 := by
    norm_num [distSqToSegment]
  have e2 : distSqToSegment (50, 50) (100, 0) (100, 100) = 2500 := by
    norm_num [distSqToSegment]
  have e3 : distSqToSegment (50, 50) (100, 100) (0, 0) = 0 := by
    norm_num [distSqToSegment]
  refine ⟨rfl, rfl, ?_, ?_, ?_, ?_, ?_, ?_⟩
  · simp [stL3, candidateSegments, List.rotate, flatLib]
  · rw [pointToLineDistance, e1]
    exact (lt_sqrt_ratCast_iff (by norm_num)).mpr (by norm_num)
  · rw [pointToLineDistance, e2]
    exact (lt_sqrt_ratCast_iff (by norm_num)).mpr (by norm_num)
  · rw [pointToLineDistance, e3]
    norm_num [Real.sqrt_zero]
  · intro nd hnd
    have hv : distSqPt (50, 50) (flatLib.proj nd) = 5000 := by
      fin_cases hnd <;> norm_num [distSqPt, flatLib]
    rw [pointDistance, hv]
    exact (lt_sqrt_ratCast_iff (by norm_num)).mpr (by norm_num)
  · simp [stL3, onMapClick, insertionResult, updateShape, flatLib, distSqPt,
      segTarget, segTargetAux, candidateSegments, List.rotate, distSqToSegment]
    norm_num

/--
C6 amended: once the idle-insertion guard passes, the candidate-segment
computation is identical for `'line'` and `'polygon'` — the loop wraps
from the last node back to the first in both cases — so the two types
produce the same node list for any click.
-/
theorem c6_line_and_polygon_insert_alike (g : GeoLib) (st : EditorState) (ll : LatLng)
    (hdraw : st.isDrawing = false) (hline : st.shapeType = some "line")
    (hcount : 3 ≤ st.nodes.length) :
    (onMapClick g { st with shapeType := some "polygon" } ll).nodes =
      (onMapClick g st ll).nodes := by
  have h2 : 2 ≤ st.nodes.length := by omega
  have hsp : (("line" : String) = "polygon") = False := by simp
  simp only [onMapClick, insertionResult, hdraw, hline]
  norm_num [hcount, h2, hsp]
  by_cases hall : ∀ nd ∈ st.nodes, (2 * st.options.nodeRadius) ^ 2 < distSqPt (g.proj ll) (g.proj nd)
  · rw [if_pos hall, if_pos hall]
    cases hseg : segTarget (g.proj ll) (candidateSegments (st.nodes.map g.proj)) with
    | none => rfl
    | some mj =>
      obtain ⟨m, j⟩ := mj
      by_cases hth : m ≤ (2 * st.options.nodeRadius) ^ 2
      · simp only [hth, if_pos, if_true, updateShape_nodes]
      · simp only [hth, if_neg, if_false]
  · rw [if_neg hall, if_neg hall]

/--
C6 witness: the wrap-equivalence applied to a concrete completed
three-node line and an arbitrary click.
-/
theorem c6_line_and_polygon_insert_alike_witness :
    (onMapClick flatLib { stW6 with shapeType := some "polygon" } ⟨30, 30⟩).nodes =
      (onMapClick flatLib stW6 ⟨30, 30⟩).nodes :=
  c6_line_and_polygon_insert_alike flatLib stW6 ⟨30, 30⟩ rfl rfl (by decide)

theorem distSqToSegment_eq_closest (p a b : Px) :
    distSqToSegment p a b = distSqPt p (segClosestPoint p a b) := by
  rcases eq_or_ne a b with hab | hab
  · subst hab
    simp [distSqToSegment, distSqPt, segClosestPoint]
  · have hfst : a.1 = b.1 → a.2 = b.2 → False := by
      intro u v
      exact hab (Prod.ext u v)
    have hlen : (b.1 - a.1) * (b.1 - a.1) + (b.2 - a.2) * (b.2 - a.2) ≠ 0 := by
      intro h
      have h1 : (b.1 - a.1) * (b.1 - a.1) = 0 ∧ (b.2 - a.2) * (b.2 - a.2) = 0 := by
        constructor <;> nlinarith [mul_self_nonneg (b.1 - a.1), mul_self_nonneg (b.2 - a.2)]
      exact hfst (by nlinarith [h1.1]) (by nlinarith [h1.2])
    simp only [distSqToSegment, segClosestPoint, distSqPt, if_neg hab, if_pos hlen]
    set t := ((p.1 - a.1) * (b.1 - a.1) + (p.2 - a.2) * (b.2 - a.2)) /
      ((b.1 - a.1) * (b.1 - a.1) + (b.2 - a.2) * (b.2 - a.2)) with ht
    by_cases h0 : t < 0
    · rw [if_pos h0, min_eq_right (show t ≤ 1 by linarith), max_eq_left h0.le]
      ring_nf
    · by_cases h1 : 1 < t
      · rw [if_neg h0, if_pos h1, min_eq_left h1.le, max_eq_right zero_le_one]
        ring_nf
      · rw [if_neg h0, if_neg h1, min_eq_right (not_lt.mp h1),
          max_eq_right (not_lt.mp h0)]

/--
C8: `_pointToLineDistance(p, a, b)` returns the Euclidean distance from
`p` to the projection of `p` onto the line through `a` and `b` clamped to
the segment (so an endpoint distance when the projection parameter falls
outside `[0, 1]`, and the distance to the first endpoint when the
endpoints coincide, via the forced `param = -1`); in particular the point
(0,5) against the segment (0,0)-(10,0) yields 5, and (-5,0) against the
same segment also yields 5.
-/
theorem c8_point_to_line_distance :
    (∀ p a b : Px, pointToLineDistance p a b = pointDistance p (segClosestPoint p a b)) ∧
      pointToLineDistance (0, 5) (0, 0) (10, 0) = 5 ∧
      pointToLineDistance (-5, 0) (0, 0) (10, 0) = 5 := by
  have h25 : ((25 : ℚ) : ℝ) = (5 : ℝ) ^ 2 := by norm_num
  refine ⟨fun p a b => ?_, ?_, ?_⟩
  · rw [pointToLineDistance, pointDistance, distSqToSegment_eq_closest]
  · have e1 : distSqToSegment (0, 5) (0, 0) (10, 0) = 25 := by
      norm_num [distSqToSegment]
    rw [pointToLineDistance, e1, h25, Real.sqrt_sq (by norm_num)]
  · have e2 : distSqToSegment (-5, 0) (0, 0) (10, 0) = 25 := by
      norm_num [distSqToSegment]
    rw [pointToLineDistance, e2, h25, Real.sqrt_sq (by norm_num)]

theorem candidateSegments_length (pts : List Px) :
    (candidateSegments pts).length = pts.length := by
  simp [candidateSegments]

theorem segTargetAux_ne_none (click : Px) (segs : List (Px × Px)) :
    ∀ (i : Nat) (m0 : ℚ) (j0 : Nat),
      segTargetAux click segs i (some (m0, j0)) ≠ none := by
  induction segs with
  | nil => intro i m0 j0 h; exact Option.noConfusion h
  | cons s rest ih =>
    intro i m0 j0
    simp only [segTargetAux]
    split_ifs with hd
    · exact ih (i + 1) _ _
    · exact ih (i + 1) _ _

theorem segTarget_cons_ne_none (click : Px) (s0 : Px × Px) (rest : List (Px × Px)) :
    segTarget click (s0 :: rest) ≠ none := by
  simp only [segTarget, segTargetAux]
  exact segTargetAux_ne_none click rest 1 _ _

theorem segTargetAux_min (click : Px) (segs : List (Px × Px)) :
    ∀ (i : Nat) (acc : Option (ℚ × Nat)) (m : ℚ) (j : Nat),
      segTargetAux click segs i acc = some (m, j) →
      (∀ s ∈ segs, m ≤ distSqToSegment click s.1 s.2) ∧
        ((∃ s ∈ segs, distSqToSegment click s.1 s.2 = m) ∨ ∃ j0, acc = some (m, j0)) ∧
        (∀ m0 j0, acc = some (m0, j0) → m ≤ m0) := by
  induction segs with
  | nil =>
    intro i acc m j h
    simp only [segTargetAux] at h
    subst h
    refine ⟨by simp, Or.inr ⟨j, rfl⟩, ?_⟩
    intro m0 j0 h0
    simp only [Option.some.injEq, Prod.mk.injEq] at h0
    exact le_of_eq h0.1
  | cons s rest ih =>
    intro i acc m j h
    cases acc with
    | none =>
      simp only [segTargetAux] at h
      obtain ⟨h1, h2, h3⟩ := ih (i + 1) _ m j h
      refine ⟨?_, ?_, fun m0 j0 h0 => Option.noConfusion h0⟩
      · intro x hx
        rcases List.mem_cons.mp hx with rfl | hx2
        · exact h3 _ _ rfl
        · exact h1 x hx2
      · rcases h2 with ⟨x, hx, he⟩ | ⟨j0, he⟩
        · exact Or.inl ⟨x, List.mem_cons_of_mem s hx, he⟩
        · simp only [Option.some.injEq, Prod.mk.injEq] at he
          exact Or.inl ⟨s, List.mem_cons_self s rest, he.1⟩
    | some mj =>
      obtain ⟨m0, j0⟩ := mj
      simp only [segTargetAux] at h
      by_cases hd : distSqToSegment click s.1 s.2 < m0
      · rw [if_pos hd] at h
        obtain ⟨h1, h2, h3⟩ := ih (i + 1) _ m j h
        refine ⟨?_, ?_, ?_⟩
        · intro x hx
          rcases List.mem_cons.mp hx with rfl | hx2
          · exact h3 _ _ rfl
          · exact h1 x hx2
        · rcases h2 with ⟨x, hx, he⟩ | ⟨j1, he⟩
          · exact Or.inl ⟨x, List.mem_cons_of_mem s hx, he⟩
          · simp only [Option.some.injEq, Prod.mk.injEq] at he
            exact Or.inl ⟨s, List.mem_cons_self s rest, he.1⟩
        · intro m1 j1 h0
          simp only [Option.some.injEq, Prod.mk.injEq] at h0
          have hmd := h3 _ _ rfl
          rw [← h0.1]
          exact le_trans hmd (le_of_lt hd)
      · rw [if_neg hd] at h
        obtain ⟨h1, h2, h3⟩ := ih (i + 1) _ m j h
        refine ⟨?_, ?_, ?_⟩
        · intro x hx
          rcases List.mem_cons.mp hx with rfl | hx2
          · exact le_trans (h3 _ _ rfl) (not_lt.mp hd)
          · exact h1 x hx2
        · rcases h2 with ⟨x, hx, he⟩ | ⟨j1, he⟩
          · exact Or.inl ⟨x, List.mem_cons_of_mem s hx, he⟩
          · simp only [Option.some.injEq, Prod.mk.injEq] at he
            exact Or.inr ⟨j0, by rw [he.1]⟩
        · intro m1 j1 h0
          simp only [Option.some.injEq, Prod.mk.injEq] at h0
          rw [← h0.1]
          exact h3 _ _ rfl

theorem segTargetAux_idx (click : Px) (segs : List (Px × Px)) :
    ∀ (i : Nat) (acc : Option (ℚ × Nat)) (m : ℚ) (j : Nat),
      (∀ m0 j0, acc = some (m0, j0) → j0 ≤ i) →
      segTargetAux click segs i acc = some (m, j) → j ≤ i + segs.length := by
  induction segs with
  | nil =>
    intro i acc m j hacc h
    simp only [segTargetAux] at h
    subst h
    simpa using hacc m j rfl
  | cons s rest ih =>
    intro i acc m j hacc h
    have hlen : i + (s :: rest).length = (i + 1) + rest.length := by
      simp [List.length_cons]
      omega
    rw [hlen]
    cases acc with
    | none =>
      simp only [segTargetAux] at h
      refine ih (i + 1) _ m j ?_ h
      intro m1 j1 h0
      simp only [Option.some.injEq, Prod.mk.injEq] at h0
      exact le_of_eq h0.2.symm
    | some mj =>
      obtain ⟨m0, j0⟩ := mj
      simp only [segTargetAux] at h
      by_cases hd : distSqToSegment click s.1 s.2 < m0
      · rw [if_pos hd] at h
        refine ih (i + 1) _ m j ?_ h
        intro m1 j1 h0
        simp only [Option.some.injEq, Prod.mk.injEq] at h0
        exact le_of_eq h0.2.symm
      · rw [if_neg hd] at h
        refine ih (i + 1) _ m j ?_ h
        intro m1 j1 h0
        simp only [Option.some.injEq, Prod.mk.injEq] at h0
        rw [← h0.2]
        exact le_trans (hacc m0 j0 rfl) (Nat.le_succ i)

theorem segTarget_min_le_iff (click : Px) (segs : List (Px × Px)) (T : ℚ)
    (hne : segs ≠ []) :
    (∃ m j, segTarget click segs = some (m, j) ∧ m ≤ T) ↔
      ∃ s ∈ segs, distSqToSegment click s.1 s.2 ≤ T := by
  constructor
  · rintro ⟨m, j, hmj, hle⟩
    obtain ⟨h1, h2, h3⟩ := segTargetAux_min click segs 0 none m j hmj
    rcases h2 with ⟨s, hs, he⟩ | ⟨j0, h0⟩
    · exact ⟨s, hs, by rw [he]; exact hle⟩
    · exact Option.noConfusion h0
  · rintro ⟨s, hs, hle⟩
    cases hseg : segTarget click segs with
    | none =>
      cases segs with
      | nil => exact absurd rfl hne
      | cons a l => exact absurd hseg (segTarget_cons_ne_none click a l)
    | some mj =>
      obtain ⟨m, j⟩ := mj
      obtain ⟨h1, h2, h3⟩ := segTargetAux_min click segs 0 none m j hseg
      exact ⟨m, j, rfl, le_trans (h1 s hs) hle⟩

theorem segTarget_idx_le (click : Px) (segs : List (Px × Px)) (m : ℚ) (j : Nat)
    (h : segTarget click segs = some (m, j)) : j ≤ segs.length := by
  have hb := segTargetAux_idx click segs 0 none m j
    (fun m0 j0 h0 => Option.noConfusion h0) h
  simpa using hb

/--
C7: for every click processed in the Idle state on a completed Polygon or
Line (node count at least the type minimum), the insertion path adds a
node exactly when the click's screen distance to every existing node
exceeds `2 * nodeRadius` AND its distance to some candidate segment
(equivalently, to the nearest one) is at most `2 * nodeRadius`; when
either condition fails, the click leaves the state entirely unchanged.
-/
theorem c7_insertion_conditions (g : GeoLib) (st : EditorState) (ll : LatLng)
    (hdraw : st.isDrawing = false)
    (htype : st.shapeType = some "polygon" ∨ st.shapeType = some "line")
    (hcount : (if st.shapeType = some "polygon" then 3 else 2) ≤ st.nodes.length)
    (hr : 0 ≤ st.options.nodeRadius) :
    ((onMapClick g st ll).nodes.length = st.nodes.length + 1 ↔
      ((∀ nd ∈ st.nodes,
          2 * (st.options.nodeRadius : ℝ) < pointDistance (g.proj ll) (g.proj nd)) ∧
        ∃ s ∈ candidateSegments (st.nodes.map g.proj),
          pointToLineDistance (g.proj ll) s.1 s.2 ≤ 2 * (st.options.nodeRadius : ℝ))) ∧
      (¬ ((∀ nd ∈ st.nodes,
            2 * (st.options.nodeRadius : ℝ) < pointDistance (g.proj ll) (g.proj nd)) ∧
          ∃ s ∈ candidateSegments (st.nodes.map g.proj),
            pointToLineDistance (g.proj ll) s.1 s.2 ≤ 2 * (st.options.nodeRadius : ℝ)) →
        onMapClick g st ll = st) := by
  have hrr : (0 : ℝ) ≤ (st.options.nodeRadius : ℝ) := by exact_mod_cast hr
  have h2r : (0 : ℝ) ≤ 2 * (st.options.nodeRadius : ℝ) := by linarith
  have hcast : (2 * (st.options.nodeRadius : ℝ)) ^ 2 =
      (((2 * st.options.nodeRadius) ^ 2 : ℚ) : ℝ) := by
    push_cast
    ring
  have hA : (∀ nd ∈ st.nodes,
        2 * (st.options.nodeRadius : ℝ) < pointDistance (g.proj ll) (g.proj nd)) ↔
      (∀ nd ∈ st.nodes,
        (2 * st.options.nodeRadius) ^ 2 < distSqPt (g.proj ll) (g.proj nd)) := by
    apply forall_congr'
    intro nd
    apply imp_congr_right
    intro hnd
    rw [pointDistance, lt_sqrt_ratCast_iff h2r, hcast, Rat.cast_lt]
  have hB : (∃ s ∈ candidateSegments (st.nodes.map g.proj),
        pointToLineDistance (g.proj ll) s.1 s.2 ≤ 2 * (st.options.nodeRadius : ℝ)) ↔
      (∃ s ∈ candidateSegments (st.nodes.map g.proj),
        distSqToSegment (g.proj ll) s.1 s.2 ≤ (2 * st.options.nodeRadius) ^ 2) := by
    apply exists_congr
    intro sg
    apply and_congr_right
    intro hs
    rw [pointToLineDistance, sqrt_ratCast_le_iff h2r, hcast, Rat.cast_le]
  have hlen2 : 2 ≤ st.nodes.length := by
    by_cases hp : st.shapeType = some "polygon"
    · rw [if_pos hp] at hcount
      omega
    · rw [if_neg hp] at hcount
      omega
  have hsegs : candidateSegments (st.nodes.map g.proj) ≠ [] := by
    intro h
    have hl := candidateSegments_length (st.nodes.map g.proj)
    rw [h] at hl
    simp only [List.length_nil, List.length_map] at hl
    omega
  have hguard : st.isDrawing = false ∧
      (st.shapeType = some "polygon" ∨ st.shapeType = some "line") ∧
      (if st.shapeType = some "polygon" then 3 else 2) ≤ st.nodes.length :=
    ⟨hdraw, htype, hcount⟩
  by_cases hall : ∀ nd ∈ st.nodes,
      ¬ distSqPt (g.proj ll) (g.proj nd) ≤ (2 * st.options.nodeRadius) ^ 2
  · have hAtrue : ∀ nd ∈ st.nodes,
        2 * (st.options.nodeRadius : ℝ) < pointDistance (g.proj ll) (g.proj nd) :=
      hA.mpr (fun nd hnd => not_le.mp (hall nd hnd))
    cases hseg : segTarget (g.proj ll) (candidateSegments (st.nodes.map g.proj)) with
    | none =>
      exfalso
      rcases hc : candidateSegments (st.nodes.map g.proj) with - | ⟨a, l⟩
      · exact hsegs hc
      · rw [hc] at hseg
        exact segTarget_cons_ne_none (g.proj ll) a l hseg
    | some mj =>
      obtain ⟨m, j⟩ := mj
      by_cases hth : m ≤ (2 * st.options.nodeRadius) ^ 2
      · have hins : insertionResult g st ll =
            some (updateShape g { st with nodes := st.nodes.insertIdx j ll }) := by
          simp only [insertionResult]
          rw [if_pos hguard, if_pos hall, hseg]
          exact if_pos hth
        have hres : onMapClick g st ll =
            updateShape g { st with nodes := st.nodes.insertIdx j ll } := by
          simp only [onMapClick]
          rw [hins]
        have hBtrue : ∃ s ∈ candidateSegments (st.nodes.map g.proj),
            pointToLineDistance (g.proj ll) s.1 s.2 ≤ 2 * (st.options.nodeRadius : ℝ) :=
          hB.mpr ((segTarget_min_le_iff (g.proj ll) _ _ hsegs).mp ⟨m, j, hseg, hth⟩)
        have hjle : j ≤ st.nodes.length := by
          have hj := segTarget_idx_le (g.proj ll) _ m j hseg
          rwa [candidateSegments_length, List.length_map] at hj
        have hlen : (updateShape g { st with nodes := st.nodes.insertIdx j ll }).nodes.length
            = st.nodes.length + 1 := by
          rw [updateShape_nodes]
          exact List.length_insertIdx j st.nodes hjle
        rw [hres]
        exact ⟨⟨fun _ => ⟨hAtrue, hBtrue⟩, fun _ => hlen⟩,
          fun hcon => absurd ⟨hAtrue, hBtrue⟩ hcon⟩
      · have hins : insertionResult g st ll = none := by
          simp only [insertionResult]
          rw [if_pos hguard, if_pos hall, hseg]
          exact if_neg hth
        have hres : onMapClick g st ll = st := by
          simp only [onMapClick]
          rw [hins]
          exact if_pos hdraw
        have hBfalse : ¬ ∃ s ∈ candidateSegments (st.nodes.map g.proj),
            pointToLineDistance (g.proj ll) s.1 s.2 ≤ 2 * (st.options.nodeRadius : ℝ) := by
          rw [hB]
          intro hex
          obtain ⟨m2, j2, hseg2, hle2⟩ :=
            (segTarget_min_le_iff (g.proj ll) _ _ hsegs).mpr hex
          rw [hseg] at hseg2
          simp only [Option.some.injEq, Prod.mk.injEq] at hseg2
          rw [hseg2.1] at hth
          exact hth hle2
        rw [hres]
        exact ⟨⟨fun h => absurd h (by omega), fun hab => absurd hab.2 hBfalse⟩,
          fun _ => rfl⟩
  · have hins : insertionResult g st ll = none := by
      simp only [insertionResult]
      rw [if_pos hguard]
      exact if_neg hall
    have hres : onMapClick g st ll = st := by
      simp only [onMapClick]
      rw [hins]
      exact if_pos hdraw
    have hAfalse : ¬ ∀ nd ∈ st.nodes,
        2 * (st.options.nodeRadius : ℝ) < pointDistance (g.proj ll) (g.proj nd) := by
      rw [hA]
      intro hA2
      exact hall (fun nd hnd => not_le.mpr (hA2 nd hnd))
    rw [hres]
    exact ⟨⟨fun h => absurd h (by omega), fun hab => absurd hab.1 hAfalse⟩,
      fun _ => rfl⟩

/--
C7 witness: clicking exactly on an existing vertex of a completed polygon
(distance 0 to that node) violates the node-distance condition, so the
click is a no-op.
-/
theorem c7_insertion_conditions_witness :
    onMapClick flatLib stW7 ⟨0, 0⟩ = stW7 :=
  (c7_insertion_conditions flatLib stW7 ⟨0, 0⟩ rfl (Or.inl rfl) (by norm_num [stW7])
      (by norm_num [stW7])).2
    (by
      rintro ⟨hA2, -⟩
      have h00 := hA2 ⟨0, 0⟩ (by norm_num [stW7])
      rw [pointDistance] at h00
      have hd0 : distSqPt (flatLib.proj (⟨0, 0⟩ : LatLng))
          (flatLib.proj (⟨0, 0⟩ : LatLng)) = 0 := by
        norm_num [distSqPt, flatLib]
      rw [hd0] at h00
      norm_num [stW7, Real.sqrt_zero] at h00)

end A7DrawShape
